import Mathlib

/-!
Verification of the Eric_Pybook scraping core (`app/app.py`).

Text is modelled as `Str := List Char` (Python `str`).  The parsed HTML
document (BeautifulSoup tree) is modelled by the mutual inductive
`Node` / `NodeList`, so that all traversals are structurally recursive
and evaluate by `rfl` / `decide` on concrete fixture documents.
-/

abbrev Str := List Char

/-- Python `tok in s` / `re.search(tok, s)`: substring containment. -/
def containsTok (tok : Str) : Str → Bool
  | [] => tok.isEmpty
  | c :: rest => tok.isPrefixOf (c :: rest) || containsTok tok rest

/-- Worker for `removeTok`: `skip` counts characters still to be dropped
from an occurrence already matched. -/
def removeTokGo (tok : Str) : Nat → Str → Str
  | _, [] => []
  | k + 1, _ :: rest => removeTokGo tok k rest
  | 0, c :: rest =>
    if tok.isPrefixOf (c :: rest) ∧ 1 ≤ tok.length then
      removeTokGo tok (tok.length - 1) rest
    else c :: removeTokGo tok 0 rest

/-- Python `s.replace(tok, '')`: delete every (leftmost, non-overlapping)
occurrence of `tok`. -/
def removeTok (tok s : Str) : Str := removeTokGo tok 0 s

/-- ASCII whitespace for `strip` (the source strings only carry these). -/
def isWs (c : Char) : Bool := c = ' ' || c = '\n' || c = '\t' || c = '\r'

/-- Python `s.strip()`. -/
def trimStr (s : Str) : Str :=
  ((s.dropWhile isWs).reverse.dropWhile isWs).reverse

/-- Attribute lookup in an association list (BeautifulSoup `tag.get`). -/
def lookupA : List (Str × Str) → Str → Option Str
  | [], _ => none
  | (k, v) :: rest, key => if k = key then some v else lookupA rest key

/-- Tag data: tag name, the `class` token list, remaining attributes. -/
structure ElemData where
  tag : Str
  classes : List Str
  attrs : List (Str × Str)

mutual
/-- A node of the parsed document: an element or a text fragment. -/
inductive Node where
  | elem (d : ElemData) (children : NodeList)
  | txt (s : Str)
/-- Children lists, mutually inductive with `Node` so that document
traversals are structurally recursive (and hence kernel-evaluable). -/
inductive NodeList where
  | nil
  | cons (n : Node) (ns : NodeList)
end

/-- Build a `NodeList` from a `List Node` (fixture-document helper). -/
def nlist : List Node → NodeList
  | [] => .nil
  | n :: ns => .cons n (nlist ns)

mutual
/-- BeautifulSoup `get_text()`: concatenation of all text fragments. -/
def getText : Node → Str
  | .txt s => s
  | .elem _ cs => getTextL cs
def getTextL : NodeList → Str
  | .nil => []
  | .cons c cs => getText c ++ getTextL cs
end

mutual
/-- BeautifulSoup `get_text(strip=True)`: each fragment stripped. -/
def getTextS : Node → Str
  | .txt s => trimStr s
  | .elem _ cs => getTextSL cs
def getTextSL : NodeList → Str
  | .nil => []
  | .cons c cs => getTextS c ++ getTextSL cs
end

mutual
/-- The node together with all its descendants, in document order. -/
def subNodes : Node → List Node
  | .txt s => [.txt s]
  | .elem d cs => .elem d cs :: subNodesL cs
def subNodesL : NodeList → List Node
  | .nil => []
  | .cons c cs => subNodes c ++ subNodesL cs
end

/-- The strict descendants of a node, in document order
(BeautifulSoup `tag.find` / `tag.find_all` search space). -/
def strictDesc : Node → List Node
  | .txt _ => []
  | .elem _ cs => subNodesL cs

mutual
/-- All descendants paired with their ancestor chain (nearest first);
`anc` is the chain above the node being visited. -/
def descsAnc : List Node → Node → List (Node × List Node)
  | anc, .txt s => [(.txt s, anc)]
  | anc, .elem d cs => (.elem d cs, anc) :: descsAncL (.elem d cs :: anc) cs
def descsAncL : List Node → NodeList → List (Node × List Node)
  | _, .nil => []
  | anc, .cons c cs => descsAnc anc c ++ descsAncL anc cs
end

/-- All nodes of the document with ancestor chains; the root's chain is
empty (its BeautifulSoup parent is the soup object itself). -/
def allWithAnc (doc : Node) : List (Node × List Node) := descsAnc [] doc

/-! ## Literals of the source (`app/app.py`) -/

def tagDiv : Str := "div".toList
def tagUl : Str := "ul".toList
def tagLi : Str := "li".toList
def tagA : Str := "a".toList
def tagH2 : Str := "h2".toList
def tagMeta : Str := "meta".toList
def tagSelect : Str := "select".toList
def tagOption : Str := "option".toList

def clsSectionBox : Str := "section-box".toList
def clsSectionList : Str := "section-list".toList
def clsLayoutTit : Str := "layout-tit".toList
def clsIndexContainer : Str := "index-container".toList
def clsPagination : Str := "pagination".toList
def clsPages : Str := "pages".toList
def clsCurrent : Str := "current".toList

def attrHref : Str := "href".toList
def attrValue : Str := "value".toList
def attrSelected : Str := "selected".toList
def attrId : Str := "id".toList
def attrProperty : Str := "property".toList
def attrContent : Str := "content".toList

def idIndexSelect : Str := "indexselect".toList

def markerLatest : Str := "最新章节".toList
def markerBody : Str := "正文".toList
def unknownBook : Str := "未知书籍".toList
def ogBookName : Str := "og:novel:book_name".toList

/-- The fixed denylist of known-bad chapter titles (line 337). -/
def denyTokens : List Str :=
  ["如来大世尊".toList, "异世佛门".toList, "佛国".toList, "公孙轩辕".toList]

def BASE_URL : Str := "https://www.kanshulao.com".toList
def lkyueduDomain : Str := "lkyuedu.com".toList
def lkyueduBase : Str := "https://www.lkyuedu.com".toList
def srcLkyuedu : Str := "lkyuedu".toList
def srcKanshulao : Str := "kanshulao".toList

def slashStr : Str := "/".toList
def httpStr : Str := "http".toList

/-! ## Element predicates and attribute access -/

/-- Tag-name test (`soup.find_all('div')` etc.); text nodes never match. -/
def isTag (t : Str) : Node → Bool
  | .elem d _ => decide (d.tag = t)
  | .txt _ => false

/-- `class_='c'`: exact membership among the tag's class tokens. -/
def hasClass (c : Str) : Node → Bool
  | .elem d _ => decide (c ∈ d.classes)
  | .txt _ => false

/-- `class_=re.compile(tok)`: `re.search` against each class token, i.e.
some token has `tok` as a substring. -/
def classMatches (tok : Str) : Node → Bool
  | .elem d _ => d.classes.any (fun cl => containsTok tok cl)
  | .txt _ => false

/-- BeautifulSoup `tag.get(k)` / `k in tag.attrs`. -/
def getAttr : Node → Str → Option Str
  | .elem d _, k => lookupA d.attrs k
  | .txt _, _ => none

def hasAttr (n : Node) (k : Str) : Bool := (getAttr n k).isSome

/-- `tag[k]`: the source indexes attributes unconditionally where it uses
this (a missing key would raise); modelled as the empty string. -/
def getAttrD (n : Node) (k : Str) : Str := (getAttr n k).getD []

/-- `find(tag, attr=value)` exact attribute match. -/
def attrEq (n : Node) (k v : Str) : Bool :=
  match getAttr n k with
  | some w => decide (w = v)
  | none => false

/-! ## Link normalization (one definition per site in the source) -/

/-- Chapter-link normalization, lines 362-367. -/
def chapterLinkResolve (base url : Str) : Str :=
  if slashStr.isPrefixOf url then base ++ url
  else if !httpStr.isPrefixOf url then base ++ slashStr ++ url
  else url

/-- Book-url normalization in `book_detail`, lines 222-227. -/
def bookUrlResolve (base url : Str) : Str :=
  if slashStr.isPrefixOf url then base ++ url
  else if !httpStr.isPrefixOf url then base ++ slashStr ++ url
  else url

/-- Dropdown option-value normalization, lines 386-391. -/
def optionValueResolve (base url : Str) : Str :=
  if slashStr.isPrefixOf url then base ++ url
  else if !httpStr.isPrefixOf url then base ++ slashStr ++ url
  else url

/-- Generic pagination anchor normalization, lines 423-428. -/
def anchorHrefResolve (base url : Str) : Str :=
  if slashStr.isPrefixOf url then base ++ url
  else if !httpStr.isPrefixOf url then base ++ slashStr ++ url
  else url

/-- Chapter navigation-link normalization (`prev`/`next`/`info`),
lines 512-537 (the same block three times). -/
def navLinkResolve (base url : Str) : Str :=
  if slashStr.isPrefixOf url then base ++ url
  else if !httpStr.isPrefixOf url then base ++ slashStr ++ url
  else url

/-- Home-page book-link normalization, line 133: two-way only. -/
def indexBookLinkResolve (url : Str) : Str :=
  if slashStr.isPrefixOf url then BASE_URL ++ url else url

/-- Home-page author-link normalization, line 135: two-way only. -/
def indexAuthorLinkResolve (url : Str) : Str :=
  if slashStr.isPrefixOf url then BASE_URL ++ url else url

/-- Search-result book link, line 184: the href is used verbatim. -/
def searchBookLinkResolve (url : Str) : Str := url

/-- Modelled from the spec (§4.3 `resolveLink`): the three-way rule in
the order the spec states it — `http` prefix unchanged, `/` prefix is
base + link, anything else base + `/` + link. -/
def threeWayRule (base url : Str) : Str :=
  if httpStr.isPrefixOf url then url
  else if slashStr.isPrefixOf url then base ++ url
  else base ++ slashStr ++ url

/-- Base-site selection in `book_detail`, lines 209-214. -/
def site_base_url (custom_url book_url page_url : Str) : Str :=
  if !custom_url.isEmpty then custom_url
  else if containsTok lkyueduDomain
      (if !book_url.isEmpty then book_url else page_url) then lkyueduBase
  else BASE_URL

/-- The URL `book_detail` actually fetches, lines 216-227: a supplied
`page_url` is used verbatim, else the book url is normalized. -/
def full_book_url (book_url page_url base : Str) : Str :=
  if !page_url.isEmpty then page_url
  else bookUrlResolve base book_url

/-! ## Cache store and fetcher (lines 29-100) -/

/-- One cache file: a well-formed `{timestamp, data}` JSON record or an
unreadable/malformed file. -/
inductive CacheEntry where
  | valid (timestamp : Nat) (payload : Str)
  | corrupt
  deriving DecidableEq

/-- The cache directory as a partial map from file name to entry. -/
abbrev CacheStore := Str → Option CacheEntry

/-- `get_cache_key`: the MD5 hex digest of the url — a deterministic
injective naming scheme, modelled by the url itself. -/
def get_cache_key (url : Str) : Str := url

/-- `save_to_cache` (lines 37-45): write `{timestamp: now, data}`. -/
def save_to_cache (store : CacheStore) (now : Nat) (url payload : Str) : CacheStore :=
  fun k => if k = get_cache_key url then some (.valid now payload) else store k

/-- `os.remove` of one cache file. -/
def removeEntry (store : CacheStore) (key : Str) : CacheStore :=
  fun k => if k = key then none else store k

/-- `load_from_cache` (lines 47-66).  Timestamps are seconds; the expiry
test is `now - timestamp > timedelta(hours=expiry_hours)`.  A malformed
entry raises inside the `try`, is caught, logged and left in place. -/
def load_from_cache (store : CacheStore) (now : Nat) (url : Str)
    (expiry_hours : Nat) : Option Str × CacheStore :=
  match store (get_cache_key url) with
  | none => (none, store)
  | some .corrupt => (none, store)
  | some (.valid ts payload) =>
    if expiry_hours * 3600 < now - ts then
      (none, removeEntry store (get_cache_key url))
    else (some payload, store)

/-- The network's behaviour for one request: a response (any HTTP status;
`requests.get` does not raise on non-2xx) or a raised transport error
(connection failure, timeout). -/
inductive NetOutcome where
  | response (status : Nat) (body : Str)
  | netError

/-- `fetch_page` (lines 78-100): cache first; on a miss one request; a
received response's body is cached and returned (the status is never
consulted); a raised error yields `None` and writes nothing. -/
def fetch_page (store : CacheStore) (now : Nat) (url : Str)
    (net : NetOutcome) : Option Str × CacheStore :=
  match load_from_cache store now url 24 with
  | (some payload, store1) => (some payload, store1)
  | (none, store1) =>
    match net with
    | .response _ body => (some body, save_to_cache store1 now url body)
    | .netError => (none, store1)

/-! ## Chapter-index container selection (lines 291-346) -/

def isSectionBoxDiv (n : Node) : Bool := isTag tagDiv n && hasClass clsSectionBox n

def isLayoutTitH2 (n : Node) : Bool := isTag tagH2 n && hasClass clsLayoutTit n

/-- `find_all('ul', class_=re.compile(r'section-list'))`, line 317. -/
def isSectionListUlRe (n : Node) : Bool := isTag tagUl n && classMatches clsSectionList n

/-- `box.find('ul', class_='section-list')`, line 351: exact class. -/
def isSectionListUl (n : Node) : Bool := isTag tagUl n && hasClass clsSectionList n

/-- `soup.find_all('div', class_='section-box')` with ancestor chains. -/
def sectionBoxesA (doc : Node) : List (Node × List Node) :=
  (allWithAnc doc).filter (fun b => isSectionBoxDiv b.1)

/-- `box.parent.find('h2', class_='layout-tit')` (lines 301-302): the
root's BeautifulSoup parent is the soup object, whose `find` searches the
whole document. -/
def parentHeading (doc : Node) : List Node → Option Node
  | [] => (subNodes doc).find? isLayoutTitH2
  | p :: _ => (strictDesc p).find? isLayoutTitH2

/-- The exclusion test of line 303: the located heading's text carries the
"latest chapters" marker. -/
def boxLatest (doc : Node) (b : Node × List Node) : Bool :=
  match parentHeading doc b.2 with
  | some h => containsTok markerLatest (getText h)
  | none => false

/-- Steps 1-2 (lines 297-312): filter out latest-chapters boxes, falling
back to the unfiltered set when that removes every box. -/
def step12Boxes (doc : Node) : List (Node × List Node) :=
  let bs := sectionBoxesA doc
  let fb := bs.filter (fun b => !boxLatest doc b)
  if fb.isEmpty && !bs.isEmpty then bs else fb

/-- `soup.find_all('ul', class_=re.compile(r'section-list'))` with
ancestor chains (line 317). -/
def sectionListsA (doc : Node) : List (Node × List Node) :=
  (allWithAnc doc).filter (fun u => isSectionListUlRe u.1)

/-- The upward walk of lines 323-332: the first ancestor containing an
`h2.layout-tit` supplies the heading; the loop's last iteration checks
the soup object, i.e. the whole document. -/
def ancestorHeading (doc : Node) : List Node → Option Node
  | [] => (subNodes doc).find? isLayoutTitH2
  | a :: rest =>
    match (strictDesc a).find? isLayoutTitH2 with
    | some h => some h
    | none => ancestorHeading doc rest

/-- Latest-chapters exclusion for the looser tier (line 333). -/
def listLatest (doc : Node) (u : Node × List Node) : Bool :=
  match ancestorHeading doc u.2 with
  | some h => containsTok markerLatest (getText h)
  | none => false

/-- BeautifulSoup `tag.string`: the single text child, through singleton
element children. -/
def nodeString : Node → Option Str
  | .txt s => some s
  | .elem _ (.cons c .nil) => nodeString c
  | .elem _ _ => none

/-- `find('a', string=re.compile(r'如来大世尊|异世佛门|佛国|公孙轩辕'))`
matcher for one anchor (line 337). -/
def isDenyAnchor (n : Node) : Bool :=
  isTag tagA n &&
    (match nodeString n with
     | some s => denyTokens.any (fun t => containsTok t s)
     | none => false)

/-- The denylist exclusion: the list contains a matching anchor. -/
def listDeny (u : Node) : Bool := ((strictDesc u).find? isDenyAnchor).isSome

/-- The looser tier's filtering (lines 319-344): drop latest-chapters and
denylisted lists, falling back to the unfiltered set when nothing is left. -/
def tier3Lists (doc : Node) : List (Node × List Node) :=
  let ls := sectionListsA doc
  let fl := ls.filter (fun u => !listLatest doc u && !listDeny u.1)
  if fl.isEmpty then ls else fl

/-- A retained container: a `div.section-box`, or (looser tier) the
`{'ul': ul}` wrapper of line 346. -/
inductive ChapterContainer where
  | box (n : Node)
  | ulist (n : Node)

/-- The full cascading selection (lines 295-346): steps 1-2 over
section-boxes; if that leaves nothing, the looser section-list tier. -/
def selectedContainers (doc : Node) : List ChapterContainer :=
  let fb := step12Boxes doc
  if fb.isEmpty then
    let ls := sectionListsA doc
    if ls.isEmpty then []
    else (tier3Lists doc).map (fun u => ChapterContainer.ulist u.1)
  else fb.map (fun b => ChapterContainer.box b.1)

structure ChapterRef where
  title : Str
  url : Str

/-- Lines 348-354: a box yields its first `ul.section-list`, a wrapper
yields its `ul`. -/
def containerUl : ChapterContainer → Option Node
  | .box n => (strictDesc n).find? isSectionListUl
  | .ulist u => some u

/-- Lines 356-373: one chapter per `li` whose first anchor carries a
href, link normalized per the chapter rule. -/
def chaptersOfUl (base : Str) (u : Node) : List ChapterRef :=
  ((strictDesc u).filter (isTag tagLi)).filterMap (fun li =>
    match (strictDesc li).find? (isTag tagA) with
    | some a =>
      match getAttr a attrHref with
      | some h => some ⟨getTextS a, chapterLinkResolve base h⟩
      | none => none
    | none => none)

/-- The emitted chapter index: document order within each retained
container, containers in selection order. -/
def chapters (doc : Node) (base : Str) : List ChapterRef :=
  (selectedContainers doc).foldr
    (fun c acc =>
      (match containerUl c with
       | some u => chaptersOfUl base u
       | none => []) ++ acc) []

/-! ## Pagination extraction (lines 376-445) -/

/-- The internal `/book?...` route reference a PageLink carries
(lines 395-403): resolved absolute url, source token, optional
custom base override. -/
structure RouteRef where
  pageUrl : Str
  source : Str
  customUrl : Option Str
  deriving DecidableEq

structure PageLink where
  text : Str
  route : RouteRef
  selected : Bool
  deriving DecidableEq

/-- Lines 395-400 / 431-436: the internal route parameters. -/
def mkRoute (src custom_url full : Str) : RouteRef :=
  { pageUrl := full
  , source := if !src.isEmpty then src
              else if containsTok lkyueduDomain full then srcLkyuedu else srcKanshulao
  , customUrl := if !custom_url.isEmpty then some custom_url else none }

/-- `find_all('div', class_=re.compile(r'index-container'))`, line 378. -/
def indexContainers (doc : Node) : List Node :=
  (subNodes doc).filter (fun n => isTag tagDiv n && classMatches clsIndexContainer n)

/-- `id=re.compile(r'indexselect')`: the id attribute matches by search. -/
def idMatchesIndexSelect (n : Node) : Bool :=
  match getAttr n attrId with
  | some v => containsTok idIndexSelect v
  | none => false

/-- `index_container.find('select', id=re.compile(r'indexselect'))`. -/
def findSelect (c : Node) : Option Node :=
  (strictDesc c).find? (fun n => isTag tagSelect n && idMatchesIndexSelect n)

/-- The loop of lines 380-410: the first container owning a matching
select wins (`break`); containers without one are skipped. -/
def firstIndexSelect (doc : Node) : Option Node :=
  (indexContainers doc).findSome? findSelect

def optionsOf (sel : Node) : List Node :=
  (strictDesc sel).filter (isTag tagOption)

/-- One PageLink per `option` (lines 383-409): normalized value wrapped
in an internal route; selected iff the markup carries the attribute. -/
def mkOptionLink (base src custom_url : Str) (o : Node) : PageLink :=
  { text := getTextS o
  , route := mkRoute src custom_url (optionValueResolve base (getAttrD o attrValue))
  , selected := hasAttr o attrSelected }

/-- PageLinks from the dropdown strategy alone. -/
def dropdownPagination (doc : Node) (base src custom_url : Str) : List PageLink :=
  match firstIndexSelect doc with
  | some sel => (optionsOf sel).map (mkOptionLink base src custom_url)
  | none => []

/-- `find('div', class_=re.compile(r'pagination|pages'))`, line 415. -/
def isPagDiv (n : Node) : Bool :=
  isTag tagDiv n && (classMatches clsPagination n || classMatches clsPages n)

/-- `'class' in link.attrs and 'current' in link['class']`, line 444. -/
def hasCurrentClass : Node → Bool
  | .elem d _ => decide (clsCurrent ∈ d.classes)
  | .txt _ => false

/-- One PageLink per usable pagination anchor (lines 418-445). -/
def mkAnchorLink (base src custom_url : Str) (ln : Node) (href : Str) : PageLink :=
  { text := getTextS ln
  , route := mkRoute src custom_url (anchorHrefResolve base href)
  , selected := hasCurrentClass ln }

/-- The generic fallback (lines 413-445): anchors of the first
pagination/pages div, skipping entries missing a href or with empty text. -/
def genericPagination (doc : Node) (base src custom_url : Str) : List PageLink :=
  match (subNodes doc).find? isPagDiv with
  | none => []
  | some d =>
    ((strictDesc d).filter (isTag tagA)).filterMap (fun ln =>
      match getAttr ln attrHref with
      | some href =>
        if href.isEmpty || (getTextS ln).isEmpty then none
        else some (mkAnchorLink base src custom_url ln href)
      | none => none)

/-- Full pagination extraction: dropdown first, generic fallback only
when the dropdown strategy produced no entries (line 413). -/
def pagination (doc : Node) (base src custom_url : Str) : List PageLink :=
  let dd := dropdownPagination doc base src custom_url
  if dd.isEmpty then genericPagination doc base src custom_url else dd

/-! ## Book-title extraction (lines 242-247) -/

/-- `soup.find('meta', property=prop)`. -/
def findMeta (doc : Node) (prop : Str) : Option Node :=
  (subNodes doc).find? (fun n => isTag tagMeta n && attrEq n attrProperty prop)

/-- The truthiness test `og_tag and og_tag.get('content')`: the tag
exists and carries a non-empty content attribute. -/
def ogContent (doc : Node) (prop : Str) : Option Str :=
  match findMeta doc prop with
  | none => none
  | some m =>
    match getAttr m attrContent with
    | some c => if c.isEmpty then none else some c
    | none => none

/-- `soup.find('h2', class_='layout-tit')`, line 246. -/
def firstLayoutTit (doc : Node) : Option Node :=
  (subNodes doc).find? isLayoutTitH2

/-- `re.sub(r'[《》]', '', s)`. -/
def removeBrackets (s : Str) : Str :=
  s.filter (fun c => !(c = '《' || c = '》'))

/-- Line 247's cleanup pipeline: brackets out, then both boilerplate
suffix tokens removed everywhere. -/
def stripHeadingTitle (s : Str) : Str :=
  removeTok markerBody (removeTok markerLatest (removeBrackets s))

/-- Title extraction (lines 242-247): og meta first, then the cleaned
layout-tit heading, then the fixed placeholder. -/
def extractTitle (doc : Node) : Str :=
  match ogContent doc ogBookName with
  | some c => c
  | none =>
    match firstLayoutTit doc with
    | some h => stripHeadingTitle (getTextS h)
    | none => unknownBook

/-! ## Fixture pages and stores for concrete witnesses -/

/-- A bare relative link (no scheme, no leading separator). -/
def fxRelLink : Str := "book_9_2/".toList

def fxUrl : Str := "https://www.kanshulao.com/book_9/".toList
def fxPayload : Str := "<html>book</html>".toList
def fxNotFound : Str := "<html>404 not found</html>".toList

def emptyStore : CacheStore := fun _ => none

/-- A store holding one well-formed entry written at time 0 for `fxUrl`. -/
def freshStore : CacheStore :=
  fun k => if k = get_cache_key fxUrl then some (.valid 0 fxPayload) else none

/-- A store holding one unreadable/malformed entry for `fxUrl`. -/
def corruptStore : CacheStore :=
  fun k => if k = get_cache_key fxUrl then some CacheEntry.corrupt else none

/-- Dropdown pagination fixture: an index-container with a
`select#indexselect` of two options, plus a generic pagination div that
must be ignored. -/
def fxOption1 : Node :=
  .elem ⟨tagOption, [], [(attrValue, "/book_9/".toList), (attrSelected, [])]⟩
    (nlist [.txt "第1页".toList])

def fxOption2 : Node :=
  .elem ⟨tagOption, [], [(attrValue, "/book_9_2/".toList)]⟩
    (nlist [.txt "第2页".toList])

def fxSelect : Node :=
  .elem ⟨tagSelect, [], [(attrId, idIndexSelect)]⟩ (nlist [fxOption1, fxOption2])

def fxIndexDiv : Node :=
  .elem ⟨tagDiv, [clsIndexContainer], []⟩ (nlist [fxSelect])

def fxPagAnchor : Node :=
  .elem ⟨tagA, [clsCurrent], [(attrHref, "/book_9_3/".toList)]⟩
    (nlist [.txt "3".toList])

def fxPagDiv : Node :=
  .elem ⟨tagDiv, [clsPagination], []⟩ (nlist [fxPagAnchor])

def fxBookDoc : Node :=
  .elem ⟨"body".toList, [], []⟩ (nlist [fxIndexDiv, fxPagDiv])

/-- Looser-tier fixture: no section-box anywhere, two section-list `ul`s
under headed rows, one of them carrying a denylisted anchor. -/
def fxDenyAnchor : Node :=
  .elem ⟨tagA, [], [(attrHref, "/x/1.html".toList)]⟩
    (nlist [.txt "如来大世尊降世".toList])

def fxDenyUl : Node :=
  .elem ⟨tagUl, [clsSectionList], []⟩
    (nlist [.elem ⟨tagLi, [], []⟩ (nlist [fxDenyAnchor])])

def fxGoodAnchor : Node :=
  .elem ⟨tagA, [], [(attrHref, "/book_9/1.html".toList)]⟩
    (nlist [.txt "第一章".toList])

def fxGoodUl : Node :=
  .elem ⟨tagUl, [clsSectionList], []⟩
    (nlist [.elem ⟨tagLi, [], []⟩ (nlist [fxGoodAnchor])])

def fxRow1 : Node :=
  .elem ⟨tagDiv, [], []⟩
    (nlist [.elem ⟨tagH2, [clsLayoutTit], []⟩ (nlist [.txt "《示例》列表".toList]), fxDenyUl])

def fxRow2 : Node :=
  .elem ⟨tagDiv, [], []⟩
    (nlist [.elem ⟨tagH2, [clsLayoutTit], []⟩ (nlist [.txt "《示例》目录".toList]), fxGoodUl])

def fxTier3Doc : Node := .elem ⟨"body".toList, [], []⟩ (nlist [fxRow1, fxRow2])

/-- Title-fallback fixture: no meta tags, one layout-tit heading. -/
def fxTitleHead : Node :=
  .elem ⟨tagH2, [clsLayoutTit], []⟩ (nlist [.txt "《示例书》最新章节".toList])

def fxTitleDoc : Node := .elem ⟨"body".toList, [], []⟩ (nlist [fxTitleHead])

def exTitleRaw : Str := "《示例书》最新章节".toList
def exTitleClean : Str := "示例书".toList

/-! ## Helper lemmas -/

/-- No string starts with both `/` and `http`. -/
theorem slash_http_conflict (url : Str) (hs : slashStr.isPrefixOf url = true)
    (hh : httpStr.isPrefixOf url = true) : False := by
  rw [show slashStr = ['/'] from rfl] at hs
  rw [show httpStr = ['h', 't', 't', 'p'] from rfl] at hh
  cases url with
  | nil => exact Bool.noConfusion hs
  | cons c rest =>
    rw [List.isPrefixOf_cons₂] at hs hh
    simp at hs hh
    subst hs
    exact absurd hh.1 (by decide)

/-- The `/`-first cascade of the source equals the spec's `http`-first
three-way rule. -/
theorem chapterLinkResolve_eq_threeWay (base url : Str) :
    chapterLinkResolve base url = threeWayRule base url := by
  unfold chapterLinkResolve threeWayRule
  cases hs : slashStr.isPrefixOf url with
  | true =>
    cases hh : httpStr.isPrefixOf url with
    | true => exact (slash_http_conflict url hs hh).elim
    | false => simp [hs, hh]
  | false =>
    cases hh : httpStr.isPrefixOf url with
    | true => simp [hs, hh]
    | false => simp [hs, hh]

/-- Every normalized link is non-empty (it carries a scheme or the base
and a separator). -/
theorem chapterLinkResolve_ne_nil (base url : Str) :
    chapterLinkResolve base url ≠ [] := by
  unfold chapterLinkResolve
  cases hs : slashStr.isPrefixOf url with
  | true =>
    simp only [hs, if_pos rfl]
    cases url with
    | nil => exact Bool.noConfusion hs
    | cons c rest => simp
  | false =>
    cases hh : httpStr.isPrefixOf url with
    | true =>
      simp only [hs, hh, Bool.not_true, if_neg Bool.false_ne_true]
      cases url with
      | nil => exact Bool.noConfusion hh
      | cons c rest => simp
    | false =>
      simp only [hs, hh, Bool.not_false, if_neg Bool.false_ne_true, if_pos rfl]
      intro h
      rcases List.append_eq_nil.mp h with ⟨h1, -⟩
      rcases List.append_eq_nil.mp h1 with ⟨-, h3⟩
      exact absurd h3 (by decide)

/-- Every PageLink of the dropdown strategy carries a non-empty
resolved url. -/
theorem dropdown_pageUrl_ne_nil (doc : Node) (base src custom_url : Str)
    (pl : PageLink) (h : pl ∈ dropdownPagination doc base src custom_url) :
    pl.route.pageUrl ≠ [] := by
  unfold dropdownPagination at h
  cases hsel : firstIndexSelect doc with
  | none => rw [hsel] at h; exact absurd h (List.not_mem_nil pl)
  | some sel =>
    rw [hsel] at h
    obtain ⟨o, ho, hrfl⟩ := List.mem_map.mp h
    rw [← hrfl]
    exact chapterLinkResolve_ne_nil base (getAttrD o attrValue)

/-- Every PageLink of the generic fallback carries a non-empty resolved
url. -/
theorem generic_pageUrl_ne_nil (doc : Node) (base src custom_url : Str)
    (pl : PageLink) (h : pl ∈ genericPagination doc base src custom_url) :
    pl.route.pageUrl ≠ [] := by
  unfold genericPagination at h
  cases hd : (subNodes doc).find? isPagDiv with
  | none => rw [hd] at h; exact absurd h (List.not_mem_nil pl)
  | some d =>
    rw [hd] at h
    obtain ⟨ln, hln, hfn⟩ := List.mem_filterMap.mp h
    cases hattr : getAttr ln attrHref with
    | none => rw [hattr] at hfn; exact absurd hfn (by simp)
    | some href =>
      rw [hattr] at hfn
      have hfn2 : (if (href.isEmpty || (getTextS ln).isEmpty) = true
          then (none : Option PageLink)
          else some (mkAnchorLink base src custom_url ln href)) = some pl := hfn
      by_cases hcond : (href.isEmpty || (getTextS ln).isEmpty) = true
      · rw [if_pos hcond] at hfn2
        exact absurd hfn2 (by simp)
      · rw [if_neg hcond] at hfn2
        rw [← Option.some.inj hfn2]
        exact chapterLinkResolve_ne_nil base href

/-! ## Claim C1 -/

/-- C1: in chapter-index extraction over section-boxes (steps 1-2,
lines 295-312), every container retained for chapter emission passes the
latest-chapters-heading exclusion — except when the exclusion would
discard every section-box, in which case the original unfiltered set of
section-boxes is retained instead. -/
theorem spec_c1_latest_chapter_filter (doc : Node) :
    (∀ b ∈ step12Boxes doc, boxLatest doc b = false) ∨
    ((∀ b ∈ sectionBoxesA doc, boxLatest doc b = true) ∧
      step12Boxes doc = sectionBoxesA doc ∧ sectionBoxesA doc ≠ []) := by
  unfold step12Boxes
  cases hfb : ((sectionBoxesA doc).filter (fun b => !boxLatest doc b)).isEmpty with
  | false =>
    left
    simp only [hfb, Bool.false_and, if_neg Bool.false_ne_true]
    intro b hb
    have := (List.mem_filter.mp hb).2
    simpa using this
  | true =>
    cases hl : (sectionBoxesA doc).isEmpty with
    | true =>
      left
      simp only [hfb, hl, Bool.not_true, Bool.and_false, if_neg Bool.false_ne_true]
      intro b hb
      rw [List.isEmpty_iff.mp hfb] at hb
      exact absurd hb (List.not_mem_nil b)
    | false =>
      right
      have hfil : (sectionBoxesA doc).filter (fun b => !boxLatest doc b) = [] :=
        List.isEmpty_iff.mp hfb
      have hall : ∀ b ∈ sectionBoxesA doc, boxLatest doc b = true := by
        intro b hb
        by_contra hfalse
        have hmem : b ∈ (sectionBoxesA doc).filter (fun b => !boxLatest doc b) := by
          rw [List.mem_filter]
          exact ⟨hb, by simp [Bool.not_eq_true] at hfalse ⊢; exact hfalse⟩
        rw [hfil] at hmem
        exact absurd hmem (List.not_mem_nil b)
      refine ⟨hall, ?_, ?_⟩
      · simp [hfb, hl]
      · intro hnil
        rw [hnil] at hl
        exact Bool.noConfusion hl

/-! ## Claim C3 -/

/-- C3 is refuted: the home-page link rule (line 133) and the
search-result link rule (line 184) return a bare relative link
unchanged, where the three-way rule would prepend the site base and a
separator. -/
theorem spec_c3_uniform_rule_counterexample :
    indexBookLinkResolve fxRelLink ≠ threeWayRule BASE_URL fxRelLink ∧
    searchBookLinkResolve fxRelLink ≠ threeWayRule BASE_URL fxRelLink := by
  constructor <;> decide

/-- C3 (amended): the three-way rule is applied identically at book-url
resolution, chapter links, dropdown option values, pagination anchors
and chapter navigation links; but home-page book/author links use a
two-way rule (leading `/` is prefixed with the base, anything else is
returned unchanged) and search-result book links are used verbatim. -/
theorem spec_c3_amended_normalization (base url : Str) :
    chapterLinkResolve base url = threeWayRule base url ∧
    bookUrlResolve base url = threeWayRule base url ∧
    optionValueResolve base url = threeWayRule base url ∧
    anchorHrefResolve base url = threeWayRule base url ∧
    navLinkResolve base url = threeWayRule base url ∧
    indexBookLinkResolve url =
      (if slashStr.isPrefixOf url then BASE_URL ++ url else url) ∧
    indexAuthorLinkResolve url = indexBookLinkResolve url ∧
    searchBookLinkResolve url = url :=
  ⟨chapterLinkResolve_eq_threeWay base url, chapterLinkResolve_eq_threeWay base url,
   chapterLinkResolve_eq_threeWay base url, chapterLinkResolve_eq_threeWay base url,
   chapterLinkResolve_eq_threeWay base url, rfl, rfl, rfl⟩

/-! ## Claim C2 -/

/-- C2: in the looser section-list tier (active exactly when no
section-box exists, lines 314-346), chapter containers come from the
tier's filtered lists; every retained list passes both the
latest-chapters and the denylist exclusion — unless the combined
exclusions remove every candidate, in which case the unfiltered list
set is used. -/
theorem spec_c2_denylist_filter (doc : Node)
    (hb : (sectionBoxesA doc).isEmpty = true)
    (hl : (sectionListsA doc).isEmpty = false) :
    selectedContainers doc =
      (tier3Lists doc).map (fun u => ChapterContainer.ulist u.1) ∧
    ((∀ u ∈ tier3Lists doc, listLatest doc u = false ∧ listDeny u.1 = false) ∨
     ((∀ u ∈ sectionListsA doc, listLatest doc u = true ∨ listDeny u.1 = true) ∧
       tier3Lists doc = sectionListsA doc)) := by
  constructor
  · have hbs : sectionBoxesA doc = [] := List.isEmpty_iff.mp hb
    unfold selectedContainers step12Boxes
    rw [hbs]
    simp [hl]
  · unfold tier3Lists
    cases hfl : ((sectionListsA doc).filter
        (fun u => !listLatest doc u && !listDeny u.1)).isEmpty with
    | false =>
      left
      simp only [hfl, if_neg Bool.false_ne_true]
      intro u hu
      have := (List.mem_filter.mp hu).2
      constructor
      · have hx := (Bool.and_eq_true _ _).mp this |>.1
        simpa using hx
      · have hx := (Bool.and_eq_true _ _).mp this |>.2
        simpa using hx
    | true =>
      right
      have hfil : (sectionListsA doc).filter
          (fun u => !listLatest doc u && !listDeny u.1) = [] :=
        List.isEmpty_iff.mp hfl
      constructor
      · intro u hu
        by_contra hboth
        push_neg at hboth
        have h1 : listLatest doc u = false := by
          cases h : listLatest doc u with
          | false => rfl
          | true => exact absurd h hboth.1
        have h2 : listDeny u.1 = false := by
          cases h : listDeny u.1 with
          | false => rfl
          | true => exact absurd h hboth.2
        have hmem : u ∈ (sectionListsA doc).filter
            (fun u => !listLatest doc u && !listDeny u.1) := by
          rw [List.mem_filter]
          exact ⟨hu, by rw [h1, h2]; rfl⟩
        rw [hfil] at hmem
        exact absurd hmem (List.not_mem_nil u)
      · simp [hfl]

/-- Concrete instance of C2: a page without section-boxes carrying one
denylisted section-list and one clean one keeps exactly the clean one. -/
theorem spec_c2_denylist_filter_witness :
    (sectionBoxesA fxTier3Doc).isEmpty = true ∧
    (sectionListsA fxTier3Doc).isEmpty = false ∧
    (selectedContainers fxTier3Doc =
      (tier3Lists fxTier3Doc).map (fun u => ChapterContainer.ulist u.1) ∧
    ((∀ u ∈ tier3Lists fxTier3Doc,
        listLatest fxTier3Doc u = false ∧ listDeny u.1 = false) ∨
     ((∀ u ∈ sectionListsA fxTier3Doc,
        listLatest fxTier3Doc u = true ∨ listDeny u.1 = true) ∧
       tier3Lists fxTier3Doc = sectionListsA fxTier3Doc))) :=
  ⟨rfl, rfl, spec_c2_denylist_filter fxTier3Doc rfl rfl⟩

/-! ## Claim C4 -/

/-- C4 is refuted at a concrete input: on a cache miss, a non-2xx
response (status 404) does not yield a failure result — its body is
returned as content and written to the cache store
(`requests.get` does not raise on HTTP error statuses and `fetch_page`
never consults the status, lines 91-97). -/
theorem spec_c4_failure_not_cached_counterexample :
    (fetch_page emptyStore 0 fxUrl (.response 404 fxNotFound)).1 = some fxNotFound ∧
    (fetch_page emptyStore 0 fxUrl (.response 404 fxNotFound)).2 (get_cache_key fxUrl) =
      some (CacheEntry.valid 0 fxNotFound) := by
  constructor <;> decide

/-- C4 (amended): on a cache miss, a raised transport error (connection
failure, timeout) yields a failure result and writes nothing to the
cache store; but any received HTTP response — regardless of status —
is treated as success: its body is cached and then returned. -/
theorem spec_c4_amended_fetch_failure (store : CacheStore) (now : Nat) (url : Str)
    (hmiss : (load_from_cache store now url 24).1 = none) :
    (fetch_page store now url .netError).1 = none ∧
    (fetch_page store now url .netError).2 = (load_from_cache store now url 24).2 ∧
    ∀ status body,
      (fetch_page store now url (.response status body)).1 = some body ∧
      (fetch_page store now url (.response status body)).2 (get_cache_key url) =
        some (.valid now body) := by
  obtain ⟨s2, h2⟩ : ∃ s2, load_from_cache store now url 24 = (none, s2) :=
    ⟨(load_from_cache store now url 24).2, by rw [← hmiss]⟩
  refine ⟨?_, ?_, fun status body => ⟨?_, ?_⟩⟩
  · simp [fetch_page, h2]
  · simp [fetch_page, h2]
  · simp [fetch_page, h2]
  · simp [fetch_page, h2, save_to_cache]

/-- Concrete instance of the amended C4 at an empty store. -/
theorem spec_c4_amended_fetch_failure_witness :
    (load_from_cache emptyStore 0 fxUrl 24).1 = none ∧
    ((fetch_page emptyStore 0 fxUrl .netError).1 = none ∧
    (fetch_page emptyStore 0 fxUrl .netError).2 = (load_from_cache emptyStore 0 fxUrl 24).2 ∧
    ∀ status body,
      (fetch_page emptyStore 0 fxUrl (.response status body)).1 = some body ∧
      (fetch_page emptyStore 0 fxUrl (.response status body)).2 (get_cache_key fxUrl) =
        some (.valid 0 body)) :=
  ⟨rfl, spec_c4_amended_fetch_failure emptyStore 0 fxUrl rfl⟩

/-! ## Claim C7 -/

/-- C7: a lookup of an entry whose age strictly exceeds the expiry
duration returns absent, and the same lookup removes the entry from the
store (lazy eviction, lines 57-61). -/
theorem spec_c7_expiry_eviction (store : CacheStore) (now ts expiry_hours : Nat)
    (url payload : Str)
    (hentry : store (get_cache_key url) = some (.valid ts payload))
    (hexp : expiry_hours * 3600 < now - ts) :
    (load_from_cache store now url expiry_hours).1 = none ∧
    (load_from_cache store now url expiry_hours).2 (get_cache_key url) = none := by
  have key : load_from_cache store now url expiry_hours =
      (none, removeEntry store (get_cache_key url)) := by
    unfold load_from_cache
    simp only [hentry]
    rw [if_pos hexp]
  rw [key]
  exact ⟨rfl, by simp [removeEntry]⟩

/-- Concrete instance of C7: an entry written at time 0, read at
100000 s (> 24 h), is reported absent and deleted. -/
theorem spec_c7_expiry_eviction_witness :
    freshStore (get_cache_key fxUrl) = some (.valid 0 fxPayload) ∧
    24 * 3600 < 100000 - 0 ∧
    ((load_from_cache freshStore 100000 fxUrl 24).1 = none ∧
     (load_from_cache freshStore 100000 fxUrl 24).2 (get_cache_key fxUrl) = none) :=
  ⟨by simp [freshStore], by decide,
   spec_c7_expiry_eviction freshStore 100000 0 24 fxUrl fxPayload (by simp [freshStore])
     (by decide)⟩

/-! ## Claim C8 -/

/-- C8 is refuted at a concrete input: a lookup of a malformed entry
does return absent, but the offending entry is NOT deleted — the
`except` branch of `load_from_cache` (lines 64-66) only logs and
returns `None`, leaving the file in the cache directory. -/
theorem spec_c8_corrupt_entry_counterexample :
    (load_from_cache corruptStore 0 fxUrl 24).1 = none ∧
    (load_from_cache corruptStore 0 fxUrl 24).2 (get_cache_key fxUrl) =
      some CacheEntry.corrupt := by
  constructor <;> decide

/-- C8 (amended): an unreadable or malformed entry yields absent rather
than a propagated failure, and the lookup leaves the store unchanged —
the offending entry is not deleted. -/
theorem spec_c8_amended_corrupt_entry (store : CacheStore) (now expiry_hours : Nat)
    (url : Str)
    (h : store (get_cache_key url) = some CacheEntry.corrupt) :
    (load_from_cache store now url expiry_hours).1 = none ∧
    (load_from_cache store now url expiry_hours).2 = store := by
  unfold load_from_cache
  rw [h]
  exact ⟨rfl, rfl⟩

/-- Concrete instance of the amended C8. -/
theorem spec_c8_amended_corrupt_entry_witness :
    corruptStore (get_cache_key fxUrl) = some CacheEntry.corrupt ∧
    ((load_from_cache corruptStore 0 fxUrl 24).1 = none ∧
     (load_from_cache corruptStore 0 fxUrl 24).2 = corruptStore) :=
  ⟨by simp [corruptStore],
   spec_c8_amended_corrupt_entry corruptStore 0 24 fxUrl (by simp [corruptStore])⟩

/-! ## Claim C10 -/

/-- C10: a cache hit returns the cached payload and leaves the store
exactly as it was — no write-back, no timestamp refresh — for every
possible network behaviour; hence an entry's expiry moment depends only
on when it was written, not on intervening reads. -/
theorem spec_c10_cache_hit_frame (store : CacheStore) (now : Nat)
    (url payload : Str) (net : NetOutcome)
    (hhit : (load_from_cache store now url 24).1 = some payload) :
    fetch_page store now url net = (some payload, store) := by
  have key : load_from_cache store now url 24 = (some payload, store) := by
    unfold load_from_cache at hhit ⊢
    cases hst : store (get_cache_key url) with
    | none => simp [hst] at hhit
    | some e =>
      cases e with
      | corrupt => simp [hst] at hhit
      | valid ts p =>
        simp only [hst] at hhit ⊢
        by_cases hex : 24 * 3600 < now - ts
        · rw [if_pos hex] at hhit; exact absurd hhit (by simp)
        · rw [if_neg hex] at hhit ⊢
          have hp : p = payload := by simpa using hhit
          rw [hp]
  unfold fetch_page
  rw [key]

/-- Concrete instance of C10: a hit on a fresh entry is returned with
the store untouched, whatever the network would have done. -/
theorem spec_c10_cache_hit_frame_witness :
    (load_from_cache freshStore 0 fxUrl 24).1 = some fxPayload ∧
    fetch_page freshStore 0 fxUrl .netError = (some fxPayload, freshStore) :=
  ⟨by simp [load_from_cache, freshStore],
   spec_c10_cache_hit_frame freshStore 0 fxUrl fxPayload .netError
     (by simp [load_from_cache, freshStore])⟩

/-! ## Claim C5 -/

/-- C5: when some index-container holds a matching dropdown selector and
it has at least one option, pagination is built from exactly that first
selector — one PageLink per option, selected iff the option carries the
`selected` attribute — and the generic anchor fallback is consulted
exactly when the dropdown strategy produced no entries. -/
theorem spec_c5_dropdown_precedence (doc : Node) (base src custom_url : Str)
    (sel : Node)
    (hsel : firstIndexSelect doc = some sel)
    (hopt : (optionsOf sel).isEmpty = false) :
    pagination doc base src custom_url =
      (optionsOf sel).map (mkOptionLink base src custom_url) ∧
    (∀ o ∈ optionsOf sel,
      (mkOptionLink base src custom_url o).selected = hasAttr o attrSelected) ∧
    (∀ doc2, dropdownPagination doc2 base src custom_url = [] →
      pagination doc2 base src custom_url =
        genericPagination doc2 base src custom_url) := by
  refine ⟨?_, fun o _ => rfl, fun doc2 hdd2 => ?_⟩
  · have hdd : dropdownPagination doc base src custom_url =
        (optionsOf sel).map (mkOptionLink base src custom_url) := by
      unfold dropdownPagination
      rw [hsel]
    have hne : ((optionsOf sel).map (mkOptionLink base src custom_url)).isEmpty
        = false := by
      cases ho : optionsOf sel with
      | nil => rw [ho] at hopt; exact absurd hopt (by simp)
      | cons a as => simp [ho]
    simp only [pagination]
    rw [hdd, hne]
    simp
  · simp only [pagination]
    rw [hdd2]
    simp

/-- Concrete instance of C5: a page holding both a dropdown selector
(two options, the first one selected) and a generic pagination div
builds its PageLinks from the dropdown alone. -/
theorem spec_c5_dropdown_precedence_witness :
    firstIndexSelect fxBookDoc = some fxSelect ∧
    (optionsOf fxSelect).isEmpty = false ∧
    (pagination fxBookDoc BASE_URL [] [] =
      (optionsOf fxSelect).map (mkOptionLink BASE_URL [] []) ∧
    (∀ o ∈ optionsOf fxSelect,
      (mkOptionLink BASE_URL [] [] o).selected = hasAttr o attrSelected) ∧
    (∀ doc2, dropdownPagination doc2 BASE_URL [] [] = [] →
      pagination doc2 BASE_URL [] [] = genericPagination doc2 BASE_URL [] [])) :=
  ⟨rfl, rfl, spec_c5_dropdown_precedence fxBookDoc BASE_URL [] [] fxSelect rfl rfl⟩

/-! ## Claim C6 -/

/-- C6: every PageLink produced by pagination extraction embeds an
absolute url in its internal route, and re-submitting that route as a
book-detail request fetches exactly that url verbatim — the `page_url`
parameter takes precedence over any book url and over the site base. -/
theorem spec_c6_pagelink_roundtrip (doc : Node)
    (base src custom_url book_url sb : Str) (pl : PageLink)
    (hmem : pl ∈ pagination doc base src custom_url) :
    full_book_url book_url pl.route.pageUrl sb = pl.route.pageUrl := by
  have hne : pl.route.pageUrl ≠ [] := by
    simp only [pagination] at hmem
    split at hmem
    · exact generic_pageUrl_ne_nil doc base src custom_url pl hmem
    · exact dropdown_pageUrl_ne_nil doc base src custom_url pl hmem
  have hf : pl.route.pageUrl.isEmpty = false := by
    cases hp : pl.route.pageUrl with
    | nil => exact absurd hp hne
    | cons a as => rfl
  unfold full_book_url
  rw [hf]
  simp

/-- Concrete instance of C6: the first dropdown PageLink of the fixture
page round-trips to the absolute url it embeds. -/
theorem spec_c6_pagelink_roundtrip_witness :
    (mkOptionLink BASE_URL [] [] fxOption1) ∈ pagination fxBookDoc BASE_URL [] [] ∧
    full_book_url [] (mkOptionLink BASE_URL [] [] fxOption1).route.pageUrl BASE_URL =
      (mkOptionLink BASE_URL [] [] fxOption1).route.pageUrl := by
  have hmem : (mkOptionLink BASE_URL [] [] fxOption1) ∈
      pagination fxBookDoc BASE_URL [] [] := by decide
  exact ⟨hmem,
    spec_c6_pagelink_roundtrip fxBookDoc BASE_URL [] [] [] BASE_URL
      (mkOptionLink BASE_URL [] [] fxOption1) hmem⟩

/-! ## Claim C9 -/

/-- C9: with no usable `og:novel:book_name` meta tag, the book title is
the layout-tit heading's text with the 《》 brackets and the boilerplate
suffix tokens stripped (so the heading 《示例书》最新章节 yields 示例书),
and with no such heading either, the fixed placeholder 未知书籍. -/
theorem spec_c9_title_fallback (doc : Node)
    (hog : ogContent doc ogBookName = none) :
    (∀ hd, firstLayoutTit doc = some hd →
       extractTitle doc = stripHeadingTitle (getTextS hd) ∧
       (getTextS hd = exTitleRaw → extractTitle doc = exTitleClean)) ∧
    (firstLayoutTit doc = none → extractTitle doc = unknownBook) := by
  constructor
  · intro hd hh
    have h1 : extractTitle doc = stripHeadingTitle (getTextS hd) := by
      simp only [extractTitle, hog, hh]
    refine ⟨h1, fun ht => ?_⟩
    rw [h1, ht]
    decide
  · intro hn
    simp only [extractTitle, hog, hn]

/-- Concrete instance of C9 on a fixture page whose heading reads
《示例书》最新章节 and which has no meta tags. -/
theorem spec_c9_title_fallback_witness :
    ogContent fxTitleDoc ogBookName = none ∧
    ((∀ hd, firstLayoutTit fxTitleDoc = some hd →
       extractTitle fxTitleDoc = stripHeadingTitle (getTextS hd) ∧
       (getTextS hd = exTitleRaw → extractTitle fxTitleDoc = exTitleClean)) ∧
    (firstLayoutTit fxTitleDoc = none → extractTitle fxTitleDoc = unknownBook)) :=
  ⟨rfl, spec_c9_title_fallback fxTitleDoc rfl⟩
